import Mathlib

/-!
Shallow embedding of `src/secret_hitler/board.py`.

Conventions used throughout:
* Python lists become Lean `List`s; the Python `set` used for the dirty
  field names becomes a `Finset String`.
* `random.shuffle` is an ambient effect in the source; every operation
  that shuffles takes the shuffle as an explicit function parameter, and
  theorems that need it assume the parameter preserves length (which an
  in-place permutation does).
* A Python method that can raise is embedded as `Except (PyError × Board) …`:
  the error case carries the exception together with the state of the
  board object at the moment the exception was raised, because Python
  exceptions do not roll back mutations already performed by the method.
* Two of the methods in the source read names that are not in scope at
  runtime (`private_state_translations` and `president_id` are a class
  attribute and an instance attribute, referenced as bare names inside a
  method body, which Python resolves through local/global/builtins scope
  only); those reads are embedded as `PyError.nameError`.
-/

inductive Tile
  | LIBERAL_POLICY
  | FASCIST_POLICY
deriving DecidableEq, Inhabited

/-- `str(tile)` from the source: `"Liberal"` for value 0, `"Fascist"` otherwise. -/
def Tile.str : Tile → String
  | Tile.LIBERAL_POLICY => "Liberal"
  | Tile.FASCIST_POLICY => "Fascist"

inductive PresidentialPower
  | INVESTIGATE_LOYALTY
  | CALL_SPECIAL_ELECTION
  | POLICY_PEEK
  | EXECUTION
deriving DecidableEq

/-- Modelled from the spec: `secret_hitler/player.py` is not under `src/`;
the spec (§2, §3) gives the role enumeration \x7bLiberal, Fascist, Hitler\x7d. -/
inductive Identity
  | LIBERAL
  | FASCIST
  | HITLER
deriving DecidableEq

/-- Modelled from the spec: `secret_hitler/player.py` is not under `src/`;
per spec §3 a Player carries an identity-stable integer id (its roster
position at creation), a display name, and a secret role assigned once at
game start (absent before that, hence `Option`).  The source constructs
players as `Player(len(self.players), name)`. -/
structure Player where
  id : Nat
  name : String
  identity : Option Identity
deriving DecidableEq

/-- The exception classes defined at the top of `board.py`, as one tagged
error kind carrying the offending value. -/
inductive GameError
  | duplicatePlayerName (dup_name : String)
  | nonexistentPlayerName (player_name : String)
  | nonexistentTile (tile : Tile)
  | invalidNumPlayers (num_players : Nat)
deriving DecidableEq

/-- Runtime exceptions an operation of the source can raise: the `GameError`
subclasses it raises deliberately, plus the interpreter-level errors its
slips produce (`NameError` for an unbound bare name, `IndexError` for an
out-of-range subscript, `TypeError` for subscripting `None`). -/
inductive PyError
  | gameError (e : GameError)
  | nameError (name : String)
  | indexError
  | typeError
deriving DecidableEq

/-- Values that the redaction transforms of `private_state_translations`
can produce for the wire mapping emitted by `extract_updates`. -/
inductive Value
  | vStr (s : String)
  | vNat (n : Nat)
  | vStrList (l : List String)
  | vPlayer (p : Player)
  | vNone
deriving DecidableEq

/-- `NUM_PLAYERS_TO_BOARD_CONFIG`: player count ↦
(num liberals, num fascists, presidential power track). -/
def NUM_PLAYERS_TO_BOARD_CONFIG : Nat → Option (Nat × Nat × List (Option PresidentialPower))
  | 5 => some (3, 1,
      [none, none, some PresidentialPower.POLICY_PEEK,
       some PresidentialPower.EXECUTION, some PresidentialPower.EXECUTION, none])
  | 6 => some (4, 1,
      [none, none, some PresidentialPower.POLICY_PEEK,
       some PresidentialPower.EXECUTION, some PresidentialPower.EXECUTION, none])
  | 7 => some (4, 2,
      [none, some PresidentialPower.INVESTIGATE_LOYALTY,
       some PresidentialPower.CALL_SPECIAL_ELECTION,
       some PresidentialPower.EXECUTION, some PresidentialPower.EXECUTION, none])
  | 8 => some (5, 2,
      [none, some PresidentialPower.INVESTIGATE_LOYALTY,
       some PresidentialPower.CALL_SPECIAL_ELECTION,
       some PresidentialPower.EXECUTION, some PresidentialPower.EXECUTION, none])
  | 9 => some (5, 3,
      [some PresidentialPower.INVESTIGATE_LOYALTY, some PresidentialPower.INVESTIGATE_LOYALTY,
       some PresidentialPower.CALL_SPECIAL_ELECTION,
       some PresidentialPower.EXECUTION, some PresidentialPower.EXECUTION, none])
  | 10 => some (6, 3,
      [some PresidentialPower.INVESTIGATE_LOYALTY, some PresidentialPower.INVESTIGATE_LOYALTY,
       some PresidentialPower.CALL_SPECIAL_ELECTION,
       some PresidentialPower.EXECUTION, some PresidentialPower.EXECUTION, none])
  | _ => none

def LIBERAL_WINNING_PROGRESS : Nat := 5

def FASCIST_WINNING_PROGRESS : Nat := 6

/-- The fields of the `Board` object.  `updates` is the dirty-field set. -/
structure Board where
  players : List Player
  eliminated_players : List Player
  president_id : Nat
  chancellor : Option Player
  prev_president : Option Player
  prev_chancellor : Option Player
  nominated_chancellor : Option Player
  unused_tiles : List Tile
  discarded_tiles : List Tile
  drawn_tiles : List Tile
  latest_policy : Option Tile
  liberal_progress : Nat
  fascist_progress : Nat
  fascist_powers : Option (List (Option PresidentialPower))
  updates : Finset String
deriving DecidableEq

/-- The deck contents built in `Board.__init__` before the initial shuffle:
6 Liberal followed by 11 Fascist tiles. -/
def initial_unused_tiles : List Tile :=
  List.replicate 6 Tile.LIBERAL_POLICY ++ List.replicate 11 Tile.FASCIST_POLICY

/-- `Board.__init__`, with the `random.shuffle` of the fresh deck supplied
as an explicit function. -/
def Board.init (shuffle : List Tile → List Tile) : Board where
  players := []
  eliminated_players := []
  president_id := 0
  chancellor := none
  prev_president := none
  prev_chancellor := none
  nominated_chancellor := none
  unused_tiles := shuffle initial_unused_tiles
  discarded_tiles := []
  drawn_tiles := []
  latest_policy := none
  liberal_progress := 0
  fascist_progress := 0
  fascist_powers := none
  updates := ∅

/-- `Board.register_update`: add a field name to the dirty set. -/
def Board.register_update (b : Board) (prop : String) : Board :=
  { b with updates := insert prop b.updates }

/-- Key set of the class attribute `private_state_translations`, in source
order.  (`fascist_powers`, which `begin_game` registers as dirty, is not a
key of the table.) -/
def private_state_translations_keys : List String :=
  ["players", "eliminated_players", "president", "chancellor", "nominated_chancellor",
   "unused_tiles", "discarded_tiles", "drawn_tiles", "liberal_progress", "fascist_progress"]

/-- `Board.extract_updates`.  The body iterates over the pending set (or a
truthy `custom_updates` argument) and, for each name, evaluates
`private_state_translations[prop]`.  `private_state_translations` is a
class attribute referenced as a bare name, which Python does not resolve
inside a method body, so the first loop iteration raises `NameError`;
only an empty iteration completes, returning an empty mapping after
clearing the pending set.  (Were the name resolvable, the `is not None`
test on the following line is inverted, so fields with a registered
transform would be emitted raw and fields registered as `None` would be
called as functions.) -/
def Board.extract_updates (b : Board) (custom_updates : Option (Finset String)) :
    Except (PyError × Board) (List (String × Value) × Board) :=
  let new_updates : Finset String :=
    match custom_updates with
    | none => b.updates
    | some s => if s = ∅ then b.updates else s
  if new_updates = ∅ then
    Except.ok ([], { b with updates := ∅ })
  else
    Except.error (PyError.nameError "private_state_translations", b)

/-- `Board.get_full_state` evaluates `private_state_translations.keys()` in
its argument list; the bare-name read of the class attribute raises
`NameError` before `extract_updates` is entered (and the call would also
pass `self` twice), so every call fails with the board unchanged. -/
def Board.get_full_state (b : Board) :
    Except (PyError × Board) (List (String × Value) × Board) :=
  Except.error (PyError.nameError "private_state_translations", b)

/-- `Board.add_player`: registers `"players"` dirty, then raises
`DuplicatePlayerNameError` if the name matches an active player, else
appends `Player(len(self.players), name)`. -/
def Board.add_player (b : Board) (name : String) : Except (PyError × Board) Board :=
  let b1 := b.register_update "players"
  if b1.players.any (fun p => p.name == name) then
    Except.error (PyError.gameError (GameError.duplicatePlayerName name), b1)
  else
    Except.ok { b1 with
      players := b1.players ++ [{ id := b1.players.length, name := name, identity := none }] }

/-- `Board.get_player`: first active player with the given name, else
`NonexistentPlayerNameError`.  Pure: it mutates nothing. -/
def Board.get_player (b : Board) (name : String) : Except PyError Player :=
  match b.players.find? (fun p => p.name == name) with
  | some p => Except.ok p
  | none => Except.error (PyError.gameError (GameError.nonexistentPlayerName name))

/-- `Board.begin_game`, with the `random.shuffle` of the identity list as an
explicit function.  Registers `"players"` and `"fascist_powers"` dirty,
validates the player count, builds and shuffles the identity multiset,
assigns identities by roster order, and binds the power track.  The
assignment loop indexes `identities[i]` for each roster position; if the
supplied shuffle shortened the list the loop raises `IndexError` after
mutating the earlier players (with a permutation this cannot happen). -/
def Board.begin_game (shuffle : List Identity → List Identity) (b : Board) :
    Except (PyError × Board) Board :=
  let b1 := (b.register_update "players").register_update "fascist_powers"
  match NUM_PLAYERS_TO_BOARD_CONFIG b1.players.length with
  | none => Except.error (PyError.gameError (GameError.invalidNumPlayers b1.players.length), b1)
  | some board_config =>
    let identities := shuffle
      (List.replicate board_config.1 Identity.LIBERAL
        ++ List.replicate board_config.2.1 Identity.FASCIST
        ++ [Identity.HITLER])
    let assigned := List.zipWith (fun p i => { p with identity := some i }) b1.players identities
    if identities.length < b1.players.length then
      Except.error (PyError.indexError,
        { b1 with players := assigned ++ b1.players.drop identities.length })
    else
      Except.ok { b1 with players := assigned, fascist_powers := some board_config.2.2 }

/-- `Board.get_president`: `self.players[self.president_id]`, raising
`IndexError` when out of range. -/
def Board.get_president (b : Board) : Except PyError Player :=
  match b.players[b.president_id]? with
  | some p => Except.ok p
  | none => Except.error PyError.indexError

/-- `Board.advance_president`: registers `"president_id"` dirty and stores
the current president into `prev_president`; the next line evaluates
`(president_id + 1) % len(self.players)` where `president_id` is a bare
name (the instance attribute is only reachable through `self`), so the
method always raises `NameError` after those two mutations. -/
def Board.advance_president (b : Board) : Except (PyError × Board) Board :=
  let b1 := b.register_update "president_id"
  match b1.get_president with
  | Except.error e => Except.error (e, b1)
  | Except.ok p =>
      Except.error (PyError.nameError "president_id", { b1 with prev_president := some p })

/-- `Board.draw_three_tiles`, with the `random.shuffle` of the discard pile
as an explicit function.  If fewer than 3 tiles are undrawn, the shuffled
discard pile is appended to the undrawn pile and emptied; then the first
three (or all remaining, when fewer) undrawn tiles replace `drawn_tiles`.
The method cannot raise: Python slicing tolerates short lists and no
error is ever thrown here. -/
def Board.draw_three_tiles (shuffle : List Tile → List Tile) (b : Board) : Board :=
  let b1 :=
    if b.unused_tiles.length < 3 then
      (({ b with
            unused_tiles := b.unused_tiles ++ shuffle b.discarded_tiles,
            discarded_tiles := [] }).register_update "unused_tiles").register_update
        "discarded_tiles"
    else b
  (({ b1 with
        drawn_tiles := b1.unused_tiles.take 3,
        unused_tiles := b1.unused_tiles.drop 3 }).register_update "drawn_tiles").register_update
    "unused_tiles"

/-- The non-enacting part of `Board.discard_tile`: remove the first matching
tile from `drawn_tiles` (`list.remove`), append it to `discarded_tiles`,
and register both fields dirty. -/
def Board.discard_base (b : Board) (t : Tile) : Board :=
  (({ b with
        drawn_tiles := b.drawn_tiles.erase t,
        discarded_tiles := b.discarded_tiles ++ [t] }).register_update
      "drawn_tiles").register_update "discarded_tiles"

/-- The enactment block of `Board.discard_tile`, entered when exactly one
drawn tile remains: record `drawn_tiles[0]` (here `headI`, equal to it on
the nonempty list of this code path) as `latest_policy`, bump the matching
progress counter, empty `drawn_tiles` (the enacted tile leaves every
pile), and register the field dirty. -/
def Board.enact (b : Board) : Board :=
  let t := b.drawn_tiles.headI
  ({ b with
      latest_policy := some t,
      liberal_progress := b.liberal_progress + (if t = Tile.LIBERAL_POLICY then 1 else 0),
      fascist_progress := b.fascist_progress + (if t = Tile.FASCIST_POLICY then 1 else 0),
      drawn_tiles := [] }).register_update "drawn_tiles"

/-- `Board.discard_tile`: raises `NonexistentTileError` (before any
mutation) unless the tile is among `drawn_tiles`; otherwise moves it to
the discard pile and, when exactly one drawn tile remains, enacts it. -/
def Board.discard_tile (b : Board) (t : Tile) : Except (PyError × Board) Board :=
  if t ∈ b.drawn_tiles then
    let b1 := b.discard_base t
    if b1.drawn_tiles.length = 1 then Except.ok b1.enact else Except.ok b1
  else
    Except.error (PyError.gameError (GameError.nonexistentTile t), b)

/-- `Board.get_winner`: Liberal iff liberal progress reached 5 (checked
first), else Fascist iff fascist progress reached 6, else none.  Pure. -/
def Board.get_winner (b : Board) : Option Tile :=
  if b.liberal_progress = LIBERAL_WINNING_PROGRESS then some Tile.LIBERAL_POLICY
  else if b.fascist_progress = FASCIST_WINNING_PROGRESS then some Tile.FASCIST_POLICY
  else none

/-- `Board.get_current_presidential_power`: none unless the latest enacted
policy is Fascist and fascist progress is positive; then the power-track
slot `fascist_progress - 1` (subscripting a `None` track raises
`TypeError`, an out-of-range slot `IndexError`).  Pure. -/
def Board.get_current_presidential_power (b : Board) :
    Except PyError (Option PresidentialPower) :=
  if b.latest_policy ≠ some Tile.FASCIST_POLICY then Except.ok none
  else if b.fascist_progress = 0 then Except.ok none
  else
    match b.fascist_powers with
    | none => Except.error PyError.typeError
    | some powers =>
      match powers[b.fascist_progress - 1]? with
      | some p => Except.ok p
      | none => Except.error PyError.indexError

/-- The board state an operation leaves behind, whether it returned
normally or raised (the error carries the object's state at raise time). -/
def afterOp : Except (PyError × Board) Board → Board
  | Except.ok b => b
  | Except.error (_, b) => b

/-- Same, for the operations that return a mapping besides mutating. -/
def afterEx : Except (PyError × Board) (List (String × Value) × Board) → Board
  | Except.ok (_, b) => b
  | Except.error (_, b) => b

/-- Neither progress counter decreased going from `b` to `b2`. -/
def progressMono (b b2 : Board) : Prop :=
  b.liberal_progress ≤ b2.liberal_progress ∧ b.fascist_progress ≤ b2.fascist_progress

/-! ### Concrete boards used as test inputs, and the deck-trace relation -/

def sampleDirty : Board := (Board.init id).register_update "players"

def sampleOnePlayer : Board :=
  { Board.init id with players := [{ id := 0, name := "a", identity := none }] }

def boardEliminatedAlice : Board :=
  { Board.init id with
      eliminated_players := [{ id := 0, name := "alice", identity := none }] }

def boardFiveSix : Board :=
  { Board.init id with liberal_progress := 5, fascist_progress := 6 }

def boardTwoTiles : Board :=
  { Board.init id with
      unused_tiles := [Tile.LIBERAL_POLICY], discarded_tiles := [Tile.FASCIST_POLICY] }

def boardDrawnLF : Board :=
  { Board.init id with drawn_tiles := [Tile.LIBERAL_POLICY, Tile.FASCIST_POLICY] }

def boardDrawnLFDiscarded : Board := afterOp (boardDrawnLF.discard_tile Tile.FASCIST_POLICY)

def doubleDrawBoard : Board :=
  ((Board.init id).draw_three_tiles id).draw_three_tiles id

/-- A deck trace.  `DeckReach b n` holds when board `b`, with `n` policies
enacted so far (the ghost enactment counter: a `discard_tile` step whose
removal leaves exactly one drawn tile enacts, all other steps do not), is
reachable from a fresh `Board` by `draw_three_tiles` and `discard_tile`
calls.  Each shuffle parameter is required to preserve length, as the
in-place `random.shuffle` does, and — the amendment forced on C1 —
`draw_three_tiles` is only invoked while `drawn_tiles` is empty, because
it overwrites `drawn_tiles`, so drawing over a non-empty drawn pool
destroys tiles (see `double_draw_loses_tiles`). -/
inductive DeckReach : Board → Nat → Prop
  | init (shuffle : List Tile → List Tile)
      (hs : (shuffle initial_unused_tiles).length = initial_unused_tiles.length) :
      DeckReach (Board.init shuffle) 0
  | draw (b : Board) (n : Nat) (shuffle : List Tile → List Tile)
      (hs : (shuffle b.discarded_tiles).length = b.discarded_tiles.length)
      (hdrawn : b.drawn_tiles = [])
      (h : DeckReach b n) :
      DeckReach (b.draw_three_tiles shuffle) n
  | discard (b : Board) (n : Nat) (t : Tile) (b2 : Board)
      (h : DeckReach b n) (hstep : b.discard_tile t = Except.ok b2) :
      DeckReach b2 (if (b.drawn_tiles.erase t).length = 1 then n + 1 else n)
  | discard_fail (b : Board) (n : Nat) (t : Tile) (e : PyError) (b2 : Board)
      (h : DeckReach b n) (hstep : b.discard_tile t = Except.error (e, b2)) :
      DeckReach b2 n

/-! ### Helper lemmas -/

theorem any_name_iff (l : List Player) (name : String) :
    (l.any (fun p => p.name == name)) = true ↔ ∃ p ∈ l, p.name = name := by
  simp [List.any_eq_true]

theorem discard_tile_ok_elim (b : Board) (t : Tile) (b2 : Board)
    (h : b.discard_tile t = Except.ok b2) :
    t ∈ b.drawn_tiles ∧
      (((b.drawn_tiles.erase t).length = 1 ∧ b2 = (b.discard_base t).enact) ∨
        (¬ (b.drawn_tiles.erase t).length = 1 ∧ b2 = b.discard_base t)) := by
  unfold Board.discard_tile at h
  by_cases hmem : t ∈ b.drawn_tiles
  · refine ⟨hmem, ?_⟩
    simp only [hmem, if_true] at h
    by_cases hlen : (b.drawn_tiles.erase t).length = 1
    · left
      refine ⟨hlen, ?_⟩
      have : (b.discard_base t).drawn_tiles.length = 1 := by
        simpa [Board.discard_base, Board.register_update] using hlen
      simp only [this, if_true] at h
      exact (Except.ok.injEq _ _).mp h |>.symm
    · right
      refine ⟨hlen, ?_⟩
      have : ¬ (b.discard_base t).drawn_tiles.length = 1 := by
        simpa [Board.discard_base, Board.register_update] using hlen
      simp only [this, if_false] at h
      exact (Except.ok.injEq _ _).mp h |>.symm
  · simp [hmem] at h

theorem discard_tile_error_elim (b : Board) (t : Tile) (e : PyError) (b2 : Board)
    (h : b.discard_tile t = Except.error (e, b2)) : b2 = b := by
  unfold Board.discard_tile at h
  by_cases hmem : t ∈ b.drawn_tiles
  · simp only [hmem, if_true] at h
    by_cases hlen : (b.discard_base t).drawn_tiles.length = 1 <;>
      simp [hlen] at h
  · simp only [hmem, if_false, Except.error.injEq, Prod.mk.injEq] at h
    exact h.2.symm

/-! ### C2 -/

/-- C2: `get_full_state` never returns any mapping at all: every call
raises `NameError` (the bare-name read of the class attribute
`private_state_translations` in its argument list) with the board left
unchanged, so in particular no raw tiles, deck order or secret role is
ever among its output values — but only because there is no output. -/
theorem get_full_state_raises_name_error (b : Board) :
    b.get_full_state = Except.error (PyError.nameError "private_state_translations", b) := rfl

/-! ### C3 -/

/-- C3: `extract_updates` never emits any pending field: whenever the
pending set is non-empty, the first loop iteration evaluates the bare name
`private_state_translations` and raises `NameError`, leaving the board
(dirty set included) unchanged; no transform is ever applied. -/
theorem extract_updates_raises_name_error (b : Board) (h : b.updates ≠ ∅) :
    b.extract_updates none =
      Except.error (PyError.nameError "private_state_translations", b) := by
  simp [Board.extract_updates, h]

theorem extract_updates_raises_name_error_witness :
    sampleDirty.extract_updates none =
      Except.error (PyError.nameError "private_state_translations", sampleDirty) :=
  extract_updates_raises_name_error sampleDirty
    (by simp [sampleDirty, Board.register_update])

/-! ### C4 -/

/-- C4: `advance_president`, called with a valid president index into a
non-empty roster, does not advance anything: after registering
`"president_id"` dirty and recording the current president into
`prev_president`, the assignment evaluates the bare name `president_id`
(the instance attribute is only reachable through `self`) and raises
`NameError`, so the president index is never updated. -/
theorem advance_president_raises_name_error (b : Board)
    (h : b.president_id < b.players.length) :
    b.advance_president = Except.error (PyError.nameError "president_id",
      { b.register_update "president_id" with
          prev_president := some (b.players.get ⟨b.president_id, h⟩) }) := by
  simp [Board.advance_president, Board.get_president, Board.register_update,
    List.getElem?_eq_getElem h]

theorem advance_president_raises_name_error_witness :
    sampleOnePlayer.advance_president = Except.error (PyError.nameError "president_id",
      { sampleOnePlayer.register_update "president_id" with
          prev_president :=
            some (sampleOnePlayer.players.get ⟨sampleOnePlayer.president_id, by decide⟩) }) :=
  advance_president_raises_name_error sampleOnePlayer (by decide)

/-! ### C8 -/

/-- C8 counterexample: `"alice"` is the name of an eliminated player, yet
`add_player "alice"` succeeds (the duplicate check scans only the active
roster), refuting "fails with DuplicateName whenever name already belongs
to an active or to an eliminated player". -/
theorem add_player_accepts_eliminated_name :
    boardEliminatedAlice.eliminated_players.map Player.name = ["alice"] ∧
    boardEliminatedAlice.add_player "alice" =
      Except.ok { boardEliminatedAlice.register_update "players" with
        players := [{ id := 0, name := "alice", identity := none }] } :=
  ⟨rfl, rfl⟩

/-- C8 (amended): `add_player name` fails with `DuplicatePlayerNameError`
exactly when `name` already belongs to an *active* player (eliminated
players are not checked), and otherwise appends a new `Player` whose id
equals the current active player count; in both cases `"players"` is
marked dirty. -/
theorem add_player_spec (b : Board) (name : String) :
    (b.add_player name =
        Except.error (PyError.gameError (GameError.duplicatePlayerName name),
          b.register_update "players")
      ↔ ∃ p ∈ b.players, p.name = name) ∧
    (b.add_player name =
        Except.error (PyError.gameError (GameError.duplicatePlayerName name),
          b.register_update "players")
      ∨ b.add_player name =
        Except.ok { b.register_update "players" with
          players := b.players ++
            [{ id := b.players.length, name := name, identity := none }] }) := by
  constructor
  · rw [← any_name_iff b.players name]
    by_cases h : b.players.any (fun p => p.name == name) = true
    · simp [Board.add_player, Board.register_update, h]
    · simp [Board.add_player, Board.register_update, h]
  · by_cases h : b.players.any (fun p => p.name == name) = true
    · left
      simp [Board.add_player, Board.register_update, h]
    · right
      simp [Board.add_player, Board.register_update, h]

/-! ### C9 -/

/-- C9 counterexample: at `liberal_progress = 5, fascist_progress = 6` the
fascist threshold is reached, yet `get_winner` returns Liberal (the
liberal check runs first), refuting "Fascist if and only if
fascist_progress == 6". -/
theorem get_winner_at_5_6_is_liberal :
    boardFiveSix.fascist_progress = FASCIST_WINNING_PROGRESS ∧
    boardFiveSix.get_winner = some Tile.LIBERAL_POLICY ∧
    boardFiveSix.get_winner ≠ some Tile.FASCIST_POLICY := by
  decide

/-- C9 (amended): `get_winner` returns Liberal iff `liberal_progress = 5`
(not 4, not 6); it returns Fascist iff `fascist_progress = 6` *and*
`liberal_progress ≠ 5` (the liberal check has priority); otherwise no
winner. -/
theorem get_winner_spec (b : Board) :
    (b.get_winner = some Tile.LIBERAL_POLICY ↔ b.liberal_progress = 5) ∧
    (b.get_winner = some Tile.FASCIST_POLICY ↔
      (b.fascist_progress = 6 ∧ ¬ b.liberal_progress = 5)) ∧
    (b.get_winner = none ↔ (¬ b.liberal_progress = 5 ∧ ¬ b.fascist_progress = 6)) := by
  unfold Board.get_winner LIBERAL_WINNING_PROGRESS FASCIST_WINNING_PROGRESS
  split_ifs with h1 h2 <;> simp_all

/-! ### C5 -/

/-- C5 counterexample: on a board whose combined pool holds only 2 tiles,
`draw_three_tiles` does not fail at all (no InsufficientTiles error exists
anywhere in the source; the method is total): it reshuffles and then
silently draws both remaining tiles. -/
theorem draw_three_short_pool_succeeds :
    boardTwoTiles.unused_tiles.length + boardTwoTiles.discarded_tiles.length = 2 ∧
    (boardTwoTiles.draw_three_tiles id).drawn_tiles =
      [Tile.LIBERAL_POLICY, Tile.FASCIST_POLICY] ∧
    (boardTwoTiles.draw_three_tiles id).unused_tiles = [] :=
  ⟨rfl, rfl, rfl⟩

/-- C5 (amended): `draw_three_tiles` never fails.  If `|undrawn| < 3` it
first shuffles `discarded`, appends it to `undrawn` and empties
`discarded`; then it moves the first `min 3 |pool|` tiles of `undrawn`
into `drawn`, replacing any previous `drawn` contents — when the combined
pool has fewer than 3 tiles it draws all of them instead of raising. -/
theorem draw_three_spec (b : Board) (shuffle : List Tile → List Tile)
    (hs : (shuffle b.discarded_tiles).length = b.discarded_tiles.length) :
    (b.draw_three_tiles shuffle).drawn_tiles =
      (if b.unused_tiles.length < 3 then b.unused_tiles ++ shuffle b.discarded_tiles
        else b.unused_tiles).take 3 ∧
    (b.draw_three_tiles shuffle).unused_tiles =
      (if b.unused_tiles.length < 3 then b.unused_tiles ++ shuffle b.discarded_tiles
        else b.unused_tiles).drop 3 ∧
    (b.draw_three_tiles shuffle).discarded_tiles =
      (if b.unused_tiles.length < 3 then ([] : List Tile) else b.discarded_tiles) ∧
    (b.draw_three_tiles shuffle).drawn_tiles.length =
      min 3 (b.unused_tiles.length + b.discarded_tiles.length) := by
  by_cases h : b.unused_tiles.length < 3 <;>
    simp [Board.draw_three_tiles, Board.register_update, h, List.length_take,
      List.length_append, hs] <;>
    omega

theorem draw_three_spec_witness :
    ((Board.init id).draw_three_tiles id).drawn_tiles =
      (if (Board.init id).unused_tiles.length < 3
        then (Board.init id).unused_tiles ++ id (Board.init id).discarded_tiles
        else (Board.init id).unused_tiles).take 3 ∧
    ((Board.init id).draw_three_tiles id).unused_tiles =
      (if (Board.init id).unused_tiles.length < 3
        then (Board.init id).unused_tiles ++ id (Board.init id).discarded_tiles
        else (Board.init id).unused_tiles).drop 3 ∧
    ((Board.init id).draw_three_tiles id).discarded_tiles =
      (if (Board.init id).unused_tiles.length < 3 then ([] : List Tile)
        else (Board.init id).discarded_tiles) ∧
    ((Board.init id).draw_three_tiles id).drawn_tiles.length =
      min 3 ((Board.init id).unused_tiles.length + (Board.init id).discarded_tiles.length) :=
  draw_three_spec (Board.init id) id rfl

/-! ### C6 -/

/-- C6: on a successful `discard_tile`, if exactly one tile is left in
`drawn_tiles` after the removal, that tile's kind is recorded as
`latest_policy`, exactly the matching progress counter is incremented by
1, and `drawn_tiles` is left empty; if the removal leaves any other
number of drawn tiles (in particular 2), neither counter changes and
`latest_policy` is untouched. -/
theorem discard_enactment_trigger (b : Board) (t : Tile) (b2 : Board)
    (h : b.discard_tile t = Except.ok b2) :
    b2.drawn_tiles =
      (if (b.drawn_tiles.erase t).length = 1 then ([] : List Tile)
        else b.drawn_tiles.erase t) ∧
    b2.latest_policy =
      (if (b.drawn_tiles.erase t).length = 1 then some (b.drawn_tiles.erase t).headI
        else b.latest_policy) ∧
    b2.liberal_progress = b.liberal_progress +
      (if (b.drawn_tiles.erase t).length = 1 ∧
          (b.drawn_tiles.erase t).headI = Tile.LIBERAL_POLICY then 1 else 0) ∧
    b2.fascist_progress = b.fascist_progress +
      (if (b.drawn_tiles.erase t).length = 1 ∧
          (b.drawn_tiles.erase t).headI = Tile.FASCIST_POLICY then 1 else 0) := by
  obtain ⟨hmem, hcase⟩ := discard_tile_ok_elim b t b2 h
  rcases hcase with ⟨hlen, rfl⟩ | ⟨hlen, rfl⟩ <;>
    simp [Board.enact, Board.discard_base, Board.register_update, hlen]

theorem discard_enactment_trigger_witness :
    boardDrawnLFDiscarded.drawn_tiles =
      (if (boardDrawnLF.drawn_tiles.erase Tile.FASCIST_POLICY).length = 1 then ([] : List Tile)
        else boardDrawnLF.drawn_tiles.erase Tile.FASCIST_POLICY) ∧
    boardDrawnLFDiscarded.latest_policy =
      (if (boardDrawnLF.drawn_tiles.erase Tile.FASCIST_POLICY).length = 1
        then some (boardDrawnLF.drawn_tiles.erase Tile.FASCIST_POLICY).headI
        else boardDrawnLF.latest_policy) ∧
    boardDrawnLFDiscarded.liberal_progress = boardDrawnLF.liberal_progress +
      (if (boardDrawnLF.drawn_tiles.erase Tile.FASCIST_POLICY).length = 1 ∧
          (boardDrawnLF.drawn_tiles.erase Tile.FASCIST_POLICY).headI = Tile.LIBERAL_POLICY
        then 1 else 0) ∧
    boardDrawnLFDiscarded.fascist_progress = boardDrawnLF.fascist_progress +
      (if (boardDrawnLF.drawn_tiles.erase Tile.FASCIST_POLICY).length = 1 ∧
          (boardDrawnLF.drawn_tiles.erase Tile.FASCIST_POLICY).headI = Tile.FASCIST_POLICY
        then 1 else 0) :=
  discard_enactment_trigger boardDrawnLF Tile.FASCIST_POLICY boardDrawnLFDiscarded rfl

/-! ### C7 -/

/-- C7 counterexample: a board whose dirty set is empty and whose roster
already holds a player named `"a"`; calling `add_player "a"` raises
`DuplicatePlayerNameError`, yet the board visible afterwards differs from
the board before the call — the dirty set has gained `"players"`, because
`register_update` runs before the duplicate check. -/
theorem add_player_failure_mutates_dirty_set :
    sampleOnePlayer.updates = ∅ ∧
    sampleOnePlayer.add_player "a" =
      Except.error (PyError.gameError (GameError.duplicatePlayerName "a"),
        sampleOnePlayer.register_update "players") ∧
    (sampleOnePlayer.register_update "players").updates ≠ sampleOnePlayer.updates := by
  refine ⟨rfl, rfl, ?_⟩
  simp [sampleOnePlayer, Board.register_update, Board.init]

/-- C7 (amended): when `add_player` raises `DuplicatePlayerNameError` or
`begin_game` raises `InvalidNumPlayersError`, every `Board` field except
the pending dirty-field set is exactly as before the call, but the dirty
set has additionally gained the names registered before validation:
`"players"` for `add_player`, `"players"` and `"fascist_powers"` for
`begin_game`. -/
theorem failure_atomic_modulo_dirty_set (b : Board) (name : String)
    (sI : List Identity → List Identity) (b1 b2 : Board) :
    (b.add_player name =
        Except.error (PyError.gameError (GameError.duplicatePlayerName name), b1) →
      b1 = b.register_update "players") ∧
    (b.begin_game sI =
        Except.error (PyError.gameError (GameError.invalidNumPlayers b.players.length), b2) →
      b2 = (b.register_update "players").register_update "fascist_powers") := by
  constructor
  · intro h1
    unfold Board.add_player at h1
    by_cases h : b.players.any (fun p => p.name == name) = true
    · simp only [Board.register_update, h, if_true, Except.error.injEq, Prod.mk.injEq] at h1
      exact h1.2.symm
    · simp [Board.register_update, h] at h1
  · intro h2
    unfold Board.begin_game at h2
    simp only [Board.register_update] at h2 ⊢
    cases hcfg : NUM_PLAYERS_TO_BOARD_CONFIG b.players.length with
    | none =>
      rw [hcfg] at h2
      simp only [Except.error.injEq, Prod.mk.injEq] at h2
      exact h2.2.symm
    | some cfg =>
      rw [hcfg] at h2
      split at h2
      · simp_all
      · split at h2 <;> simp at h2

theorem failure_atomic_modulo_dirty_set_witness :
    sampleOnePlayer.register_update "players" = sampleOnePlayer.register_update "players" ∧
    (sampleOnePlayer.register_update "players").register_update "fascist_powers" =
      (sampleOnePlayer.register_update "players").register_update "fascist_powers" :=
  ⟨(failure_atomic_modulo_dirty_set sampleOnePlayer "a" id
      (sampleOnePlayer.register_update "players")
      ((sampleOnePlayer.register_update "players").register_update "fascist_powers")).1 rfl,
   (failure_atomic_modulo_dirty_set sampleOnePlayer "a" id
      (sampleOnePlayer.register_update "players")
      ((sampleOnePlayer.register_update "players").register_update "fascist_powers")).2 rfl⟩

/-! ### C10 -/

/-- C10: no state-passing operation of the `Board` ever decreases either
progress counter — each call, whether it returns normally or raises,
leaves `liberal_progress` and `fascist_progress` at least their old
values — and a `discard_tile` call changes the pair not at all, or bumps
exactly one of the two counters by exactly 1.  (The remaining operations
of the claim — `get_winner`, `get_player`, `get_current_presidential_power`
— contain no assignment in the source and are embedded as pure functions
returning no board, so they cannot touch the counters.) -/
theorem progress_monotonic (b : Board) (name : String)
    (sI : List Identity → List Identity) (sT : List Tile → List Tile)
    (t : Tile) (cu : Option (Finset String)) :
    progressMono b (afterOp (b.add_player name)) ∧
    progressMono b (afterOp (b.begin_game sI)) ∧
    progressMono b (b.draw_three_tiles sT) ∧
    progressMono b (afterOp (b.discard_tile t)) ∧
    progressMono b (afterOp b.advance_president) ∧
    progressMono b (afterEx (b.extract_updates cu)) ∧
    progressMono b (afterEx b.get_full_state) ∧
    (((afterOp (b.discard_tile t)).liberal_progress = b.liberal_progress ∧
        (afterOp (b.discard_tile t)).fascist_progress = b.fascist_progress) ∨
      ((afterOp (b.discard_tile t)).liberal_progress = b.liberal_progress + 1 ∧
        (afterOp (b.discard_tile t)).fascist_progress = b.fascist_progress) ∨
      ((afterOp (b.discard_tile t)).liberal_progress = b.liberal_progress ∧
        (afterOp (b.discard_tile t)).fascist_progress = b.fascist_progress + 1)) := by
  have hdisc :
      ((afterOp (b.discard_tile t)).liberal_progress = b.liberal_progress ∧
        (afterOp (b.discard_tile t)).fascist_progress = b.fascist_progress) ∨
      ((afterOp (b.discard_tile t)).liberal_progress = b.liberal_progress + 1 ∧
        (afterOp (b.discard_tile t)).fascist_progress = b.fascist_progress) ∨
      ((afterOp (b.discard_tile t)).liberal_progress = b.liberal_progress ∧
        (afterOp (b.discard_tile t)).fascist_progress = b.fascist_progress + 1) := by
    cases hstep : b.discard_tile t with
    | ok b2 =>
      obtain ⟨hmem, hcase⟩ := discard_tile_ok_elim b t b2 hstep
      rcases hcase with ⟨hlen, rfl⟩ | ⟨hlen, rfl⟩
      · cases hhead : (b.drawn_tiles.erase t).headI <;>
          simp [afterOp, Board.enact, Board.discard_base, Board.register_update, hhead]
      · simp [afterOp, Board.discard_base, Board.register_update]
    | error eb =>
      obtain ⟨e, b2⟩ := eb
      have := discard_tile_error_elim b t e b2 hstep
      subst this
      simp [afterOp]
  refine ⟨?_, ?_, ?_, ?_, ?_, ?_, ?_, hdisc⟩
  · by_cases h : b.players.any (fun p => p.name == name) = true <;>
      simp [progressMono, afterOp, Board.add_player, Board.register_update, h]
  · unfold Board.begin_game
    cases hcfg : NUM_PLAYERS_TO_BOARD_CONFIG b.players.length with
    | none => simp [progressMono, afterOp, Board.register_update, hcfg]
    | some cfg =>
      simp only [Board.register_update, hcfg]
      split <;> simp [progressMono, afterOp]
  · by_cases h : b.unused_tiles.length < 3 <;>
      simp [progressMono, Board.draw_three_tiles, Board.register_update, h]
  · rcases hdisc with ⟨h1, h2⟩ | ⟨h1, h2⟩ | ⟨h1, h2⟩ <;>
      simp [progressMono, h1, h2]
  · unfold Board.advance_president Board.get_president
    cases hp : b.players[b.president_id]? with
    | none => simp [progressMono, afterOp, Board.register_update, hp]
    | some p => simp [progressMono, afterOp, Board.register_update, hp]
  · unfold Board.extract_updates
    cases cu with
    | none =>
      by_cases h : b.updates = ∅ <;> simp [progressMono, afterEx, h]
    | some s =>
      by_cases hs : s = ∅
      · by_cases h : b.updates = ∅ <;> simp [progressMono, afterEx, hs, h]
      · by_cases h : b.updates = ∅ <;> simp [progressMono, afterEx, hs, h]
  · simp [progressMono, afterEx, Board.get_full_state]

/-! ### C1 -/

/-- C1 counterexample: the two-call sequence drawThree; drawThree from a
fresh board.  The second draw overwrites the 3 drawn tiles without
enacting anything (both progress counters are still 0, so any reading of
enactedCount is 0), leaving a tile sum of 14, not 17. -/
theorem double_draw_loses_tiles :
    doubleDrawBoard.liberal_progress + doubleDrawBoard.fascist_progress = 0 ∧
    doubleDrawBoard.unused_tiles.length + doubleDrawBoard.discarded_tiles.length +
        doubleDrawBoard.drawn_tiles.length +
        (doubleDrawBoard.liberal_progress + doubleDrawBoard.fascist_progress) = 14 ∧
    ¬ (doubleDrawBoard.unused_tiles.length + doubleDrawBoard.discarded_tiles.length +
        doubleDrawBoard.drawn_tiles.length +
        (doubleDrawBoard.liberal_progress + doubleDrawBoard.fascist_progress) = 17) := by
  decide

/-- C1 (amended): along every trace of `draw_three_tiles` and
`discard_tile` calls from a fresh board in which `draw_three_tiles` is
only called while the drawn pool is empty, the tile sum
`|undrawn| + |discarded| + |drawn| + enactedCount` stays 17, and the
ghost enactment counter always equals
`liberal_progress + fascist_progress`. -/
theorem tile_conservation (b : Board) (n : Nat) (h : DeckReach b n) :
    b.unused_tiles.length + b.discarded_tiles.length + b.drawn_tiles.length + n = 17 ∧
    n = b.liberal_progress + b.fascist_progress := by
  induction h with
  | init shuffle hs =>
      refine ⟨?_, rfl⟩
      have h17 : initial_unused_tiles.length = 17 := by simp [initial_unused_tiles]
      simp [Board.init, hs, h17]
  | draw b n shuffle hs hdrawn h ih =>
      obtain ⟨ih1, ih2⟩ := ih
      have hdl : b.drawn_tiles.length = 0 := by rw [hdrawn]; rfl
      constructor
      · by_cases hlt : b.unused_tiles.length < 3 <;>
          simp [Board.draw_three_tiles, Board.register_update, hlt, List.length_take,
            List.length_drop, List.length_append, hs] <;>
          omega
      · by_cases hlt : b.unused_tiles.length < 3 <;>
          simp [Board.draw_three_tiles, Board.register_update, hlt, ih2]
  | discard b n t b2 h hstep ih =>
      obtain ⟨ih1, ih2⟩ := ih
      obtain ⟨hmem, hcase⟩ := discard_tile_ok_elim b t b2 hstep
      have hpos : 0 < b.drawn_tiles.length := List.length_pos_of_mem hmem
      have herase : (b.drawn_tiles.erase t).length = b.drawn_tiles.length - 1 :=
        List.length_erase_of_mem hmem
      rcases hcase with ⟨hlen, rfl⟩ | ⟨hlen, rfl⟩
      · constructor
        · simp [Board.enact, Board.discard_base, Board.register_update, hlen,
            List.length_append]
          omega
        · cases hhead : (b.drawn_tiles.erase t).headI <;>
            simp [Board.enact, Board.discard_base, Board.register_update, hlen, hhead] <;>
            omega
      · constructor
        · simp [Board.discard_base, Board.register_update, hlen, List.length_append]
          omega
        · simp [Board.discard_base, Board.register_update, hlen, ih2]
  | discard_fail b n t e b2 h hstep ih =>
      have heq : b2 = b := discard_tile_error_elim b t e b2 hstep
      subst heq
      exact ih

theorem tile_conservation_witness :
    (Board.init id).unused_tiles.length + (Board.init id).discarded_tiles.length +
        (Board.init id).drawn_tiles.length + 0 = 17 ∧
      0 = (Board.init id).liberal_progress + (Board.init id).fascist_progress :=
  tile_conservation (Board.init id) 0 (DeckReach.init id rfl)
